import Mathlib

/-!
Verification of the solar-farm monitoring server's telemetry core.

This file gives a shallow embedding, in Lean, of the live telemetry
ingestion and status-derivation pipeline of the server:

* the threshold/status policy and the `GET /live-status` compositor of
  `src/routes/panels.ts` (constants `DEVICE_ONLINE_THRESHOLD_MS`,
  `MIN_HEALTHY_PANEL_VOLTAGE`, `MIN_WARNING_PANEL_VOLTAGE`, the
  `deviceToPanelMap` table, `getDeviceOnline`, the per-device status
  classification, `onlinePowerMw` / `efficiencyFromEsp`, and the
  30-second history bucketing `bucketMap` / `powerHistory30s`);
* the `POST /sensor-update` ingestion endpoint of the same router
  (`parseNumber` validation, mapping check, device upsert, reading
  append, per-panel status/output update, power-generation upsert);
* the Raspberry-Pi vision intake of `src/index.ts` (`pi_analysis_result`
  socket handler: severity / risk-score derivation, nested scan +
  detection creation, and the bounded `piResults` broadcast backlog);
* the older HTTP vision intake `POST /` of `src/routes/solarScans.ts`
  (scan creation followed by separate detection creation).

JavaScript numbers are modelled as rationals (ℚ), epoch-millisecond
timestamps as integers (ℤ), nullable values as `Option`, and JS `Map`
objects as insertion-ordered association lists.  Database writes are
modelled by explicit state passing; fallible database calls take
explicit success/failure outcomes.  Image decoding and file-system
persistence are elided: no property below depends on them.
-/

namespace SolarGuardian

/-! ### JS `Map` as an insertion-ordered association list

`Map.get` returns the value at the first (unique) matching key;
`Map.set` overwrites in place when the key is present and appends
otherwise.
-/

def mapGet [DecidableEq κ] : List (κ × β) → κ → Option β
  | [], _ => none
  | p :: m, k => if p.1 = k then some p.2 else mapGet m k

def mapSet [DecidableEq κ] : List (κ × β) → κ → β → List (κ × β)
  | [], k, v => [(k, v)]
  | p :: m, k, v => if p.1 = k then (k, v) :: m else p :: mapSet m k v

/-- JS `new Map(entries)`: repeated `set`, later duplicates overwrite. -/
def jsMapOfList [DecidableEq κ] (l : List (κ × β)) : List (κ × β) :=
  l.foldl (fun m p => mapSet m p.1 p.2) []

theorem mapGet_mapSet_self [DecidableEq κ] (m : List (κ × β)) (k : κ) (v : β) :
    mapGet (mapSet m k v) k = some v := by
  induction m with
  | nil => simp [mapGet, mapSet]
  | cons p m ih =>
    by_cases h : p.1 = k
    · simp [mapGet, mapSet, h]
    · simp [mapGet, mapSet, h, ih]

theorem mapGet_mapSet_ne [DecidableEq κ] (m : List (κ × β)) (k k' : κ) (v : β)
    (h : k' ≠ k) : mapGet (mapSet m k v) k' = mapGet m k' := by
  have hk : ¬(k = k') := fun he => h he.symm
  induction m with
  | nil => simp [mapGet, mapSet, hk]
  | cons p m ih =>
    by_cases hp : p.1 = k
    · subst hp
      simp [mapGet, mapSet, hk]
    · by_cases hp' : p.1 = k' <;> simp [mapGet, mapSet, hp, hp', ih, h]

theorem mapGet_eq_none_iff [DecidableEq κ] (m : List (κ × β)) (k : κ) :
    mapGet m k = none ↔ k ∉ m.map Prod.fst := by
  induction m with
  | nil => simp [mapGet]
  | cons p m ih =>
    by_cases h : p.1 = k
    · simp [mapGet, h]
    · simp only [mapGet, if_neg h, ih, List.map_cons, List.mem_cons]
      constructor
      · intro hk hor
        rcases hor with hor | hor
        · exact h hor.symm
        · exact hk hor
      · intro hk hm
        exact hk (Or.inr hm)

theorem mem_of_mapGet_eq_some [DecidableEq κ] (m : List (κ × β)) (k : κ) (v : β)
    (h : mapGet m k = some v) : (k, v) ∈ m := by
  induction m with
  | nil => simp [mapGet] at h
  | cons p m ih =>
    by_cases hp : p.1 = k
    · simp only [mapGet, if_pos hp] at h
      rcases p with ⟨pk, pv⟩
      obtain rfl : pv = v := by injection h
      obtain rfl : pk = k := hp
      exact List.mem_cons_self _ _
    · simp only [mapGet, if_neg hp] at h
      exact List.mem_cons_of_mem _ (ih h)

theorem mapGet_isSome_iff [DecidableEq κ] (m : List (κ × β)) (k : κ) :
    (mapGet m k).isSome = true ↔ k ∈ m.map Prod.fst := by
  rcases hg : mapGet m k with _ | v
  · simp only [Option.isSome_none, Bool.false_eq_true, false_iff]
    exact (mapGet_eq_none_iff m k).mp hg
  · simp only [Option.isSome_some, true_iff]
    exact List.mem_map.mpr ⟨(k, v), mem_of_mapGet_eq_some m k v hg, rfl⟩

theorem keys_mapSet_of_none [DecidableEq κ] (m : List (κ × β)) (k : κ) (v : β)
    (hn : mapGet m k = none) :
    (mapSet m k v).map Prod.fst = m.map Prod.fst ++ [k] := by
  induction m with
  | nil => simp [mapSet]
  | cons p m ih =>
    by_cases h : p.1 = k
    · simp [mapGet, h] at hn
    · simp only [mapGet, if_neg h] at hn
      simp [mapSet, if_neg h, ih hn]

theorem keys_mapSet_of_some [DecidableEq κ] (m : List (κ × β)) (k : κ) (v : β)
    (hs : mapGet m k ≠ none) :
    (mapSet m k v).map Prod.fst = m.map Prod.fst := by
  induction m with
  | nil => simp [mapGet] at hs
  | cons p m ih =>
    by_cases h : p.1 = k
    · simp [mapSet, h]
    · simp only [mapGet, if_neg h] at hs
      simp [mapSet, if_neg h, ih hs]

theorem nodup_keys_mapSet [DecidableEq κ] (m : List (κ × β)) (k : κ) (v : β)
    (h : (m.map Prod.fst).Nodup) : ((mapSet m k v).map Prod.fst).Nodup := by
  rcases hn : mapGet m k with _ | w
  · rw [keys_mapSet_of_none m k v hn]
    rw [List.nodup_append]
    refine ⟨h, List.nodup_singleton k, ?_⟩
    intro a ha hb
    rw [List.mem_singleton] at hb
    subst hb
    exact (mapGet_eq_none_iff m a).mp hn ha
  · rw [keys_mapSet_of_some m k v (by simp [hn])]
    exact h

theorem mapGet_eq_some_of_mem_nodup [DecidableEq κ] (m : List (κ × β)) (k : κ) (v : β)
    (hnd : (m.map Prod.fst).Nodup) (h : (k, v) ∈ m) : mapGet m k = some v := by
  induction m with
  | nil => simp at h
  | cons p m ih =>
    rw [List.map_cons, List.nodup_cons] at hnd
    rcases List.mem_cons.mp h with h | h
    · subst h
      simp [mapGet]
    · have hk : p.1 ≠ k := by
        intro he
        exact hnd.1 (he ▸ (List.mem_map.mpr ⟨(k, v), h, rfl⟩))
      simp only [mapGet, if_neg hk]
      exact ih hnd.2 h

/-! ### Source constants and the static device→panel mapping -/

def DEVICE_ONLINE_THRESHOLD_MS : ℤ := 30 * 1000

def MIN_HEALTHY_PANEL_VOLTAGE : ℚ := 6

def MIN_WARNING_PANEL_VOLTAGE : ℚ := 4.5

/-- Static configuration `deviceToPanelMap`: each ESP32 controls a series
string of panels. -/
def deviceToPanelEntries : List (String × List String) :=
  [("ESP_01", ["PNL-A0101", "PNL-A0102", "PNL-A0103"]),
   ("ESP_02", ["PNL-A0201", "PNL-A0202", "PNL-A0203"]),
   ("ESP_03", ["PNL-A0301", "PNL-A0302", "PNL-A0303"])]

def deviceToPanelMap (deviceId : String) : Option (List String) :=
  mapGet deviceToPanelEntries deviceId

/-- Keys of the mapping, as enumerated by `Object.keys(deviceToPanelMap)`. -/
def deviceIdsList : List String := deviceToPanelEntries.map Prod.fst

/-- All mapped panel ids, as `Object.values(deviceToPanelMap).flat()`. -/
def mappedPanelIds : List String := (deviceToPanelEntries.map Prod.snd).flatten

/-- The divisor expression `deviceToPanelMap[deviceId]?.length || 1` used by
both `withDeviceSensorData` (perPanelVoltage) and `GET /live-status`
(panelCount): a missing mapping or an empty panel list counts as 1. -/
def panelCountOf (deviceId : String) : ℕ :=
  let n := ((deviceToPanelMap deviceId).map List.length).getD 0
  if n = 0 then 1 else n

/-! ### Device rows and the live-status classifier -/

structure EspDevice where
  deviceId : String
  lastSeenAt : Option ℤ
  latestVoltage : Option ℚ
  latestCurrentMa : Option ℚ
  latestPowerMw : Option ℚ
deriving DecidableEq

/-- Source `getDeviceOnline(lastSeenAt, nowMs)`:
no timestamp means offline, otherwise online iff the reading is at most
`DEVICE_ONLINE_THRESHOLD_MS` old. -/
def getDeviceOnline (lastSeenAt : Option ℤ) (nowMs : ℤ) : Bool :=
  match lastSeenAt with
  | none => false
  | some t => decide (nowMs - t ≤ DEVICE_ONLINE_THRESHOLD_MS)

/-- The JS test `v !== null && v < c` on a nullable number. -/
def optLt (o : Option ℚ) (c : ℚ) : Bool :=
  match o with
  | none => false
  | some v => decide (v < c)

structure LiveDeviceRow where
  deviceId : String
  online : Bool
  status : String
  voltage : ℚ
  currentMa : ℚ
  powerMw : ℚ
deriving DecidableEq

/-- One entry of the `devices` array built by `GET /live-status`
(the `deviceIds.map(...)` body): recompute online/offline against `now`,
derive the status from per-panel voltage and power, and zero the
effective readings when offline. -/
def liveDeviceRow (now : ℤ) (device : Option EspDevice) (deviceId : String) :
    LiveDeviceRow :=
  let online := getDeviceOnline (device.bind (·.lastSeenAt)) now
  let panelCount := panelCountOf deviceId
  let perPanelVoltage : Option ℚ :=
    (device.bind (·.latestVoltage)).map (fun v => v / (panelCount : ℚ))
  let powerOrZero : ℚ := (device.bind (·.latestPowerMw)).getD 0
  let status :=
    if online then
      if optLt perPanelVoltage MIN_WARNING_PANEL_VOLTAGE then "fault"
      else if optLt perPanelVoltage MIN_HEALTHY_PANEL_VOLTAGE || decide (powerOrZero ≤ 0)
        then "warning"
      else "healthy"
    else "offline"
  { deviceId := deviceId
    online := online
    status := status
    voltage := if online then (device.bind (·.latestVoltage)).getD 0 else 0
    currentMa := if online then (device.bind (·.latestCurrentMa)).getD 0 else 0
    powerMw := if online then powerOrZero else 0 }

/-- Per-panel status adjustment of `withDeviceSensorData`
(`panels.map(...)` body, status part): start from the stored panel
status (default offline), force offline when the device is not online,
and downgrade a stored healthy to warning when the per-panel voltage is
below the healthy threshold. -/
def withSensorDerivedStatus (panelStatus : Option String) (isOnline : Bool)
    (perPanelVoltage : Option ℚ) : String :=
  let derived := panelStatus.getD "offline"
  if !isOnline then "offline"
  else if derived = "healthy" && optLt perPanelVoltage MIN_HEALTHY_PANEL_VOLTAGE
    then "warning"
  else derived

/-! ### Time-bucketed history aggregator (`GET /live-status` bucketMap /
`powerHistory30s`) -/

/-- One row of `recentReadings`: a sensor reading joined with its device's
id, as returned by the history query. -/
structure EspReadingRec where
  deviceId : String
  powerMw : ℚ
  recordedAt : ℤ
deriving DecidableEq

/-- Bucket key
`Math.floor(recordedAt / DEVICE_ONLINE_THRESHOLD_MS) * DEVICE_ONLINE_THRESHOLD_MS`. -/
def bucketKeyOf (t : ℤ) : ℤ :=
  ⌊(t : ℚ) / (DEVICE_ONLINE_THRESHOLD_MS : ℚ)⌋ * DEVICE_ONLINE_THRESHOLD_MS

/-- Inner `Map<string, reading>`: per-device kept reading of one bucket. -/
abbrev InnerBucket := List (String × EspReadingRec)

/-- Outer `Map<number, Map<string, reading>>`. -/
abbrev BucketMap := List (ℤ × InnerBucket)

/-- Body of the `for (const reading of recentReadings)` loop: ensure the
bucket exists, then keep the reading for its device unless an already
kept reading has a strictly later recorded-at. -/
def insertReading (m : BucketMap) (r : EspReadingRec) : BucketMap :=
  let bucketMs := bucketKeyOf r.recordedAt
  let bucket := (mapGet m bucketMs).getD []
  let bucket' :=
    match mapGet bucket r.deviceId with
    | none => mapSet bucket r.deviceId r
    | some existing =>
        if existing.recordedAt < r.recordedAt then mapSet bucket r.deviceId r
        else bucket
  mapSet m bucketMs bucket'

def bucketMapOf (rs : List EspReadingRec) : BucketMap :=
  rs.foldl insertReading []

structure HistoryPoint where
  timestamp : ℤ
  totalPowerKw : ℚ
  deviceCount : ℕ
deriving DecidableEq

/-- The `powerHistory30s` series: bucket entries sorted ascending by
bucket start, each mapped to the sum of its kept readings' powers (in
kW) and the number of devices present. -/
def powerHistory30s (rs : List EspReadingRec) : List HistoryPoint :=
  ((bucketMapOf rs).mergeSort (fun a b => decide (a.1 ≤ b.1))).map
    (fun e =>
      { timestamp := e.1
        totalPowerKw := ((e.2.map (fun p => p.2.powerMw)).sum) / 1000000
        deviceCount := e.2.length })

/-- The reading kept for device `d` in bucket `b`: it comes from the
snapshot, lies in that bucket, belongs to that device, and no reading of
the same device in the same bucket has a later recorded-at. -/
def KeptReading (rs : List EspReadingRec) (b : ℤ) (d : String)
    (r : EspReadingRec) : Prop :=
  r ∈ rs ∧ bucketKeyOf r.recordedAt = b ∧ r.deviceId = d ∧
    ∀ r' ∈ rs, r'.deviceId = d → bucketKeyOf r'.recordedAt = b →
      r'.recordedAt ≤ r.recordedAt

/-- Device `d` has at least one reading in bucket `b`. -/
def InBucket (rs : List EspReadingRec) (b : ℤ) (d : String) : Prop :=
  ∃ r ∈ rs, r.deviceId = d ∧ bucketKeyOf r.recordedAt = b

/-- Invariant of the bucketing fold relating the nested map to the
readings consumed so far. -/
structure BucketInv (rs : List EspReadingRec) (m : BucketMap) : Prop where
  outerNodup : (m.map Prod.fst).Nodup
  outerKeys : ∀ b, (mapGet m b).isSome = true ↔ ∃ r ∈ rs, bucketKeyOf r.recordedAt = b
  innerNodup : ∀ b inner, mapGet m b = some inner → (inner.map Prod.fst).Nodup
  innerKeys : ∀ b inner, mapGet m b = some inner →
    ∀ d, (mapGet inner d).isSome = true ↔ InBucket rs b d
  innerKept : ∀ b inner, mapGet m b = some inner →
    ∀ d r, mapGet inner d = some r → KeptReading rs b d r

theorem bucketInv_nil : BucketInv [] [] := by
  refine ⟨List.nodup_nil, ?_, ?_, ?_, ?_⟩
  · intro b
    simp [mapGet]
  · intro b inner h
    simp [mapGet] at h
  · intro b inner h
    simp [mapGet] at h
  · intro b inner h
    simp [mapGet] at h

theorem keptReading_snoc_of_ne_bucket {rs : List EspReadingRec} {b : ℤ}
    {d : String} {r x : EspReadingRec} (hx : bucketKeyOf x.recordedAt ≠ b)
    (h : KeptReading rs b d r) : KeptReading (rs ++ [x]) b d r := by
  obtain ⟨hmem, hb, hd, hmax⟩ := h
  refine ⟨List.mem_append_left _ hmem, hb, hd, ?_⟩
  intro r' hr' hd' hb'
  rcases List.mem_append.mp hr' with hr' | hr'
  · exact hmax r' hr' hd' hb'
  · rw [List.mem_singleton] at hr'
    subst hr'
    exact absurd hb' hx

theorem keptReading_snoc_of_ne_device {rs : List EspReadingRec} {b : ℤ}
    {d : String} {r x : EspReadingRec} (hx : x.deviceId ≠ d)
    (h : KeptReading rs b d r) : KeptReading (rs ++ [x]) b d r := by
  obtain ⟨hmem, hb, hd, hmax⟩ := h
  refine ⟨List.mem_append_left _ hmem, hb, hd, ?_⟩
  intro r' hr' hd' hb'
  rcases List.mem_append.mp hr' with hr' | hr'
  · exact hmax r' hr' hd' hb'
  · rw [List.mem_singleton] at hr'
    subst hr'
    exact absurd hd' hx

theorem inBucket_snoc_iff {rs : List EspReadingRec} {b : ℤ} {d : String}
    {x : EspReadingRec} (hx : ¬(x.deviceId = d ∧ bucketKeyOf x.recordedAt = b)) :
    InBucket (rs ++ [x]) b d ↔ InBucket rs b d := by
  constructor
  · rintro ⟨r, hr, hd, hb⟩
    rcases List.mem_append.mp hr with hr | hr
    · exact ⟨r, hr, hd, hb⟩
    · rw [List.mem_singleton] at hr
      subst hr
      exact absurd ⟨hd, hb⟩ hx
  · rintro ⟨r, hr, hd, hb⟩
    exact ⟨r, List.mem_append_left _ hr, hd, hb⟩

theorem bucketInv_insert {rs : List EspReadingRec} {m : BucketMap}
    (inv : BucketInv rs m) (x : EspReadingRec) :
    BucketInv (rs ++ [x]) (insertReading m x) := by
  classical
  set b := bucketKeyOf x.recordedAt with hb
  set bucket : InnerBucket := (mapGet m b).getD [] with hbucket
  set bucket' : InnerBucket :=
    (match mapGet bucket x.deviceId with
     | none => mapSet bucket x.deviceId x
     | some existing =>
         if existing.recordedAt < x.recordedAt then mapSet bucket x.deviceId x
         else bucket) with hbucket'
  have hres : insertReading m x = mapSet m b bucket' := rfl
  -- facts about the stored bucket
  have bucketNodup : (bucket.map Prod.fst).Nodup := by
    rcases hmb : mapGet m b with _ | inner
    · simp [hbucket, hmb]
    · have := inv.innerNodup b inner hmb
      simpa [hbucket, hmb] using this
  have bucketKeysIff : ∀ d, (mapGet bucket d).isSome = true ↔ InBucket rs b d := by
    intro d
    rcases hmb : mapGet m b with _ | inner
    · simp only [hbucket, hmb, Option.getD_none]
      constructor
      · intro h
        simp [mapGet] at h
      · rintro ⟨r, hr, hd, hbr⟩
        have : (mapGet m b).isSome = true := (inv.outerKeys b).mpr ⟨r, hr, hbr⟩
        rw [hmb] at this
        simp at this
    · have := inv.innerKeys b inner hmb d
      simpa [hbucket, hmb] using this
  have bucketKept : ∀ d r, mapGet bucket d = some r → KeptReading rs b d r := by
    intro d r hdr
    rcases hmb : mapGet m b with _ | inner
    · rw [hbucket] at hdr
      rw [hmb] at hdr
      simp [mapGet] at hdr
    · refine inv.innerKept b inner hmb d r ?_
      rw [hbucket] at hdr
      rw [hmb] at hdr
      simpa using hdr
  -- facts about the updated bucket
  have hcase :
      (mapGet bucket x.deviceId = none ∧ bucket' = mapSet bucket x.deviceId x) ∨
      (∃ existing, mapGet bucket x.deviceId = some existing ∧
        existing.recordedAt < x.recordedAt ∧ bucket' = mapSet bucket x.deviceId x) ∨
      (∃ existing, mapGet bucket x.deviceId = some existing ∧
        ¬ existing.recordedAt < x.recordedAt ∧ bucket' = bucket) := by
    rw [hbucket']
    rcases hex : mapGet bucket x.deviceId with _ | existing
    · exact Or.inl ⟨rfl, rfl⟩
    · by_cases hlt : existing.recordedAt < x.recordedAt
      · exact Or.inr (Or.inl ⟨existing, rfl, hlt, by simp [hlt]⟩)
      · exact Or.inr (Or.inr ⟨existing, rfl, hlt, by simp [hlt]⟩)
  have bucketNodup' : (bucket'.map Prod.fst).Nodup := by
    have hc := hcase
    rcases hc with ⟨-, hq⟩ | ⟨existing, -, -, hq⟩ | ⟨existing, -, -, hq⟩
    · rw [hq]
      exact nodup_keys_mapSet _ _ _ bucketNodup
    · rw [hq]
      exact nodup_keys_mapSet _ _ _ bucketNodup
    · rw [hq]
      exact bucketNodup
  have hgetNe : ∀ d, d ≠ x.deviceId → mapGet bucket' d = mapGet bucket d := by
    intro d hd
    have hc := hcase
    rcases hc with ⟨-, hq⟩ | ⟨existing, -, -, hq⟩ | ⟨existing, -, -, hq⟩
    · rw [hq]
      exact mapGet_mapSet_ne _ _ _ _ hd
    · rw [hq]
      exact mapGet_mapSet_ne _ _ _ _ hd
    · rw [hq]
  have bucketKeysIff' : ∀ d, (mapGet bucket' d).isSome = true ↔
      InBucket (rs ++ [x]) b d := by
    intro d
    by_cases hd : d = x.deviceId
    · have hleft : (mapGet bucket' d).isSome = true := by
        rw [hd]
        rcases hcase with ⟨-, hq⟩ | ⟨existing, -, -, hq⟩ | ⟨existing, hex, -, hq⟩ <;>
          rw [hq]
        · simp [mapGet_mapSet_self]
        · simp [mapGet_mapSet_self]
        · simp [hex]
      simp only [hleft, true_iff]
      exact ⟨x, List.mem_append_right _ (List.mem_singleton_self x), hd.symm, rfl⟩
    · rw [hgetNe d hd]
      rw [inBucket_snoc_iff (by
        intro hcon
        exact hd hcon.1.symm)]
      exact bucketKeysIff d
  have keptX : mapGet bucket x.deviceId = none ∨
      (∃ existing, mapGet bucket x.deviceId = some existing ∧
        existing.recordedAt < x.recordedAt) →
      KeptReading (rs ++ [x]) b x.deviceId x := by
    intro hnew
    refine ⟨List.mem_append_right _ (List.mem_singleton_self x), rfl, rfl, ?_⟩
    intro r' hr' hd' hb'
    rcases List.mem_append.mp hr' with hr' | hr'
    · rcases hnew with hnone | ⟨existing, hex, hlt⟩
      · exfalso
        have : (mapGet bucket x.deviceId).isSome = true :=
          (bucketKeysIff x.deviceId).mpr ⟨r', hr', hd', hb'⟩
        rw [hnone] at this
        simp at this
      · have hkexist := bucketKept x.deviceId existing hex
        exact le_of_lt (lt_of_le_of_lt (hkexist.2.2.2 r' hr' hd' hb') hlt)
    · rw [List.mem_singleton] at hr'
      subst hr'
      exact le_refl _
  have bucketKept' : ∀ d r, mapGet bucket' d = some r →
      KeptReading (rs ++ [x]) b d r := by
    intro d r hdr
    by_cases hd : d = x.deviceId
    · rw [hd] at hdr ⊢
      have hc := hcase
      rcases hc with ⟨hex, hq⟩ | ⟨existing, hex, hlt, hq⟩ | ⟨existing, hex, hlt, hq⟩
      · rw [hq, mapGet_mapSet_self] at hdr
        obtain rfl : x = r := by injection hdr
        exact keptX (Or.inl hex)
      · rw [hq, mapGet_mapSet_self] at hdr
        obtain rfl : x = r := by injection hdr
        exact keptX (Or.inr ⟨existing, hex, hlt⟩)
      · rw [hq, hex] at hdr
        obtain rfl : existing = r := by injection hdr
        obtain ⟨hmem, hbe, hde, hmax⟩ := bucketKept x.deviceId existing hex
        refine ⟨List.mem_append_left _ hmem, hbe, hde, ?_⟩
        intro r' hr' hd' hb'
        rcases List.mem_append.mp hr' with hr' | hr'
        · exact hmax r' hr' hd' hb'
        · rw [List.mem_singleton] at hr'
          subst hr'
          exact le_of_not_lt hlt
    · rw [hgetNe d hd] at hdr
      exact keptReading_snoc_of_ne_device (fun he => hd he.symm) (bucketKept d r hdr)
  -- assemble the invariant for the extended map
  rw [hres]
  refine ⟨nodup_keys_mapSet _ _ _ inv.outerNodup, ?_, ?_, ?_, ?_⟩
  · intro b''
    by_cases hbb : b'' = b
    · subst hbb
      simp only [mapGet_mapSet_self, Option.isSome_some, true_iff]
      exact ⟨x, List.mem_append_right _ (List.mem_singleton_self x), rfl⟩
    · rw [mapGet_mapSet_ne _ _ _ _ hbb]
      rw [inv.outerKeys b'']
      constructor
      · rintro ⟨r, hr, hbr⟩
        exact ⟨r, List.mem_append_left _ hr, hbr⟩
      · rintro ⟨r, hr, hbr⟩
        rcases List.mem_append.mp hr with hr | hr
        · exact ⟨r, hr, hbr⟩
        · rw [List.mem_singleton] at hr
          subst hr
          exact absurd hbr (by
            rw [hb] at hbb
            exact fun he => hbb he.symm)
  · intro b'' inner h
    by_cases hbb : b'' = b
    · subst hbb
      rw [mapGet_mapSet_self] at h
      obtain rfl : bucket' = inner := by injection h
      exact bucketNodup'
    · rw [mapGet_mapSet_ne _ _ _ _ hbb] at h
      exact inv.innerNodup b'' inner h
  · intro b'' inner h d
    by_cases hbb : b'' = b
    · subst hbb
      rw [mapGet_mapSet_self] at h
      obtain rfl : bucket' = inner := by injection h
      exact bucketKeysIff' d
    · rw [mapGet_mapSet_ne _ _ _ _ hbb] at h
      rw [inBucket_snoc_iff (by
        rintro ⟨-, hbx⟩
        exact hbb (hb ▸ hbx.symm))]
      exact inv.innerKeys b'' inner h d
  · intro b'' inner h d r hdr
    by_cases hbb : b'' = b
    · subst hbb
      rw [mapGet_mapSet_self] at h
      obtain rfl : bucket' = inner := by injection h
      exact bucketKept' d r hdr
    · rw [mapGet_mapSet_ne _ _ _ _ hbb] at h
      refine keptReading_snoc_of_ne_bucket ?_ (inv.innerKept b'' inner h d r hdr)
      rw [← hb]
      exact fun he => hbb he.symm

theorem bucketInv_of (rs : List EspReadingRec) : BucketInv rs (bucketMapOf rs) := by
  induction rs using List.reverseRecOn with
  | nil => exact bucketInv_nil
  | append_singleton xs x ih =>
    have : bucketMapOf (xs ++ [x]) = insertReading (bucketMapOf xs) x := by
      unfold bucketMapOf
      rw [List.foldl_concat]
    rw [this]
    exact bucketInv_insert ih x

theorem sortedEntries_perm (rs : List EspReadingRec) :
    ((bucketMapOf rs).mergeSort (fun a b => decide (a.1 ≤ b.1))).Perm
      (bucketMapOf rs) :=
  List.mergeSort_perm _ _

theorem sortedEntries_pairwise (rs : List EspReadingRec) :
    ((bucketMapOf rs).mergeSort (fun a b => decide (a.1 ≤ b.1))).Pairwise
      (fun a b => a.1 ≤ b.1) := by
  have h := @List.sorted_mergeSort (ℤ × InnerBucket)
    (fun a b => decide (a.1 ≤ b.1))
    (fun a b c hab hbc =>
      decide_eq_true (le_trans (of_decide_eq_true hab) (of_decide_eq_true hbc)))
    (fun a b => by
      rcases le_total a.1 b.1 with h | h <;> simp [h])
    (bucketMapOf rs)
  exact h.imp (fun hab => of_decide_eq_true hab)

theorem sortedEntries_keys_nodup (rs : List EspReadingRec) :
    (((bucketMapOf rs).mergeSort (fun a b => decide (a.1 ≤ b.1))).map Prod.fst).Nodup :=
  ((sortedEntries_perm rs).map Prod.fst).nodup_iff.mpr (bucketInv_of rs).outerNodup

theorem powerHistory_pairwise_lt (rs : List EspReadingRec) :
    (powerHistory30s rs).Pairwise (fun p q => p.timestamp < q.timestamp) := by
  unfold powerHistory30s
  rw [List.pairwise_map]
  have hle := sortedEntries_pairwise rs
  have hne : ((bucketMapOf rs).mergeSort (fun a b => decide (a.1 ≤ b.1))).Pairwise
      (fun a b => a.1 ≠ b.1) := by
    have := sortedEntries_keys_nodup rs
    rw [List.Nodup, List.pairwise_map] at this
    exact this
  exact (hle.and hne).imp (fun hab => lt_of_le_of_ne hab.1 hab.2)

theorem powerHistory_mem_iff (rs : List EspReadingRec) (b : ℤ) :
    (∃ p ∈ powerHistory30s rs, p.timestamp = b) ↔
      ∃ r ∈ rs, bucketKeyOf r.recordedAt = b := by
  constructor
  · rintro ⟨p, hp, hpb⟩
    unfold powerHistory30s at hp
    rcases List.mem_map.mp hp with ⟨e, he, hfe⟩
    have heb : e.1 = b := by
      rw [← hpb, ← hfe]
    have hem : e ∈ bucketMapOf rs := (sortedEntries_perm rs).mem_iff.mp he
    have hkey : e.1 ∈ (bucketMapOf rs).map Prod.fst :=
      List.mem_map.mpr ⟨e, hem, rfl⟩
    have := ((bucketInv_of rs).outerKeys e.1).mp
      ((mapGet_isSome_iff _ _).mpr hkey)
    rw [heb] at this
    exact this
  · rintro ⟨r, hr, hrb⟩
    have hsome := ((bucketInv_of rs).outerKeys b).mpr ⟨r, hr, hrb⟩
    rcases Option.isSome_iff_exists.mp hsome with ⟨inner, hinner⟩
    have hmem : (b, inner) ∈ bucketMapOf rs := mem_of_mapGet_eq_some _ _ _ hinner
    have hsorted : (b, inner) ∈
        (bucketMapOf rs).mergeSort (fun a b => decide (a.1 ≤ b.1)) :=
      (sortedEntries_perm rs).mem_iff.mpr hmem
    refine ⟨_, List.mem_map.mpr ⟨(b, inner), hsorted, rfl⟩, rfl⟩

theorem powerHistory_point_spec (rs : List EspReadingRec) :
    ∀ p ∈ powerHistory30s rs, ∃ kept : List EspReadingRec,
      (kept.map (·.deviceId)).Nodup ∧
      p.deviceCount = kept.length ∧
      (∀ d, d ∈ kept.map (·.deviceId) ↔ InBucket rs p.timestamp d) ∧
      (∀ k ∈ kept, KeptReading rs p.timestamp k.deviceId k) ∧
      p.totalPowerKw = ((kept.map (·.powerMw)).sum) / 1000000 := by
  intro p hp
  unfold powerHistory30s at hp
  rcases List.mem_map.mp hp with ⟨e, he, hfe⟩
  have hem : e ∈ bucketMapOf rs := (sortedEntries_perm rs).mem_iff.mp he
  have hget : mapGet (bucketMapOf rs) e.1 = some e.2 := by
    rcases e with ⟨b, inner⟩
    exact mapGet_eq_some_of_mem_nodup _ _ _ (bucketInv_of rs).outerNodup hem
  have hnd := (bucketInv_of rs).innerNodup e.1 e.2 hget
  have hkeys := (bucketInv_of rs).innerKeys e.1 e.2 hget
  have hkept := (bucketInv_of rs).innerKept e.1 e.2 hget
  have hdev : ∀ q ∈ e.2, q.2.deviceId = q.1 := by
    intro q hq
    have : mapGet e.2 q.1 = some q.2 := by
      rcases q with ⟨d, r⟩
      exact mapGet_eq_some_of_mem_nodup _ _ _ hnd hq
    exact (hkept q.1 q.2 this).2.2.1
  have hmapdev : (e.2.map Prod.snd).map (·.deviceId) = e.2.map Prod.fst := by
    rw [List.map_map]
    exact List.map_congr_left hdev
  have htime : p.timestamp = e.1 := by rw [← hfe]
  refine ⟨e.2.map Prod.snd, ?_, ?_, ?_, ?_, ?_⟩
  · rw [hmapdev]
    exact hnd
  · rw [← hfe]
    simp
  · intro d
    rw [hmapdev, htime]
    rw [← mapGet_isSome_iff]
    exact hkeys d
  · intro k hk
    rcases List.mem_map.mp hk with ⟨q, hq, hqk⟩
    have hqget : mapGet e.2 q.1 = some q.2 := by
      rcases q with ⟨d, r⟩
      exact mapGet_eq_some_of_mem_nodup _ _ _ hnd hq
    have := hkept q.1 q.2 hqget
    rw [htime]
    rw [← hqk]
    rw [hdev q hq]
    exact this
  · rw [← hfe]
    simp [List.map_map]
    rfl

/-! ### Live-status fleet aggregation (`GET /live-status`) -/

/-- The lookup map `new Map(dbDevices.map((d) => [d.deviceId, d]))`. -/
def dbDeviceById (dbDevices : List EspDevice) : List (String × EspDevice) :=
  jsMapOfList (dbDevices.map (fun d => (d.deviceId, d)))

/-- The `devices` array: one row per configured device id. -/
def liveDevices (now : ℤ) (dbDevices : List EspDevice) : List LiveDeviceRow :=
  deviceIdsList.map (fun id => liveDeviceRow now (mapGet (dbDeviceById dbDevices) id) id)

/-- The `onlineDeviceIds` set, in insertion order. -/
def onlineDeviceIds (rows : List LiveDeviceRow) : List String :=
  (rows.filter (·.online)).map (·.deviceId)

/-- `onlinePowerMw`: rows are filtered by membership of their device id in
the online set, then their powers summed. -/
def onlinePowerMw (rows : List LiveDeviceRow) : ℚ :=
  ((rows.filter (fun r => (onlineDeviceIds rows).contains r.deviceId)).map
    (·.powerMw)).sum

def currentGenerationKwFromEsp (rows : List LiveDeviceRow) : ℚ :=
  onlinePowerMw rows / 1000000

/-- `new Map(mappedPanels.map((panel) => [panel.panelId, panel.maxOutput]))`. -/
def panelMaxOutputMap (mappedPanels : List (String × ℚ)) : List (String × ℚ) :=
  jsMapOfList mappedPanels

/-- Panel ids mapped to online devices. -/
def onlineMappedPanelIds (rows : List LiveDeviceRow) : List String :=
  (onlineDeviceIds rows).flatMap (fun id => (deviceToPanelMap id).getD [])

/-- Summed rated output (W) of the online devices' mapped panels. -/
def onlineMappedMaxOutputW (rows : List LiveDeviceRow)
    (mappedPanels : List (String × ℚ)) : ℚ :=
  ((onlineMappedPanelIds rows).map
    (fun pid => (mapGet (panelMaxOutputMap mappedPanels) pid).getD 0)).sum

/-- `efficiencyFromEsp`: zero when no device is online or no rated output
is known, otherwise online power over online rated output as a
percentage, capped at 100. -/
def efficiencyFromEsp (rows : List LiveDeviceRow)
    (mappedPanels : List (String × ℚ)) : ℚ :=
  if (onlineDeviceIds rows).length = 0 then 0
  else if 0 < onlineMappedMaxOutputW rows mappedPanels then
    min 100 (onlinePowerMw rows / 1000 / onlineMappedMaxOutputW rows mappedPanels * 100)
  else 0

/-! ### `POST /sensor-update` ingestion -/

/-- A JSON field value as far as this endpoint inspects it. -/
inductive JsValue
  | num (q : ℚ)
  | str (s : String)
  | null
deriving DecidableEq

structure SensorUpdateBody where
  device_id : Option JsValue
  voltage : Option JsValue
  current : Option JsValue
  power : Option JsValue
deriving DecidableEq

def jsTrimChars (cs : List Char) : List Char :=
  ((cs.dropWhile (·.isWhitespace)).reverse.dropWhile (·.isWhitespace)).reverse

def digitsVal (cs : List Char) : ℕ :=
  cs.foldl (fun a c => a * 10 + (c.toNat - 48)) 0

/-- Modelled from the JS `Number(string)` builtin on the inputs this
endpoint can meet: an optionally signed decimal literal parses to its
value, and anything else (for example `"abc"`) is NaN, represented as
`none`.  (Exotic accepted forms — exponents, hex — are out of the
modelled input space; `Infinity` would be rejected by the finiteness
check just as NaN is.) -/
def jsNumberOfString (s : String) : Option ℚ :=
  let t := jsTrimChars s.toList
  let signAndBody : ℚ × List Char :=
    match t with
    | '-' :: cs => (-1, cs)
    | '+' :: cs => (1, cs)
    | cs => (1, cs)
  let sign := signAndBody.1
  let body := signAndBody.2
  let intCs := body.takeWhile (·.isDigit)
  let rest := body.drop intCs.length
  match rest with
  | [] => if intCs.isEmpty then none else some (sign * (digitsVal intCs : ℚ))
  | '.' :: frac =>
      if frac.all (·.isDigit) && !(intCs.isEmpty && frac.isEmpty) then
        some (sign * ((digitsVal intCs : ℚ) +
          (digitsVal frac : ℚ) / (10 : ℚ) ^ frac.length))
      else none
  | _ => none

/-- Source `parseNumber`: numbers pass through, non-blank strings go
through `Number(...)`, everything else is NaN (`none`). -/
def parseNumber : Option JsValue → Option ℚ
  | some (.num q) => some q
  | some (.str s) =>
      if (jsTrimChars s.toList).isEmpty then none else jsNumberOfString s
  | _ => none

/-- JS truthiness test `!device_id` on the destructured field. -/
def jsFalsy : Option JsValue → Bool
  | none => true
  | some .null => true
  | some (.str s) => decide (s = "")
  | some (.num q) => decide (q = 0)

/-- The string used to index `deviceToPanelMap`; only a string field can
match the configured `ESP_xx` keys. -/
def bodyDeviceKey : Option JsValue → Option String
  | some (.str s) => some s
  | _ => none

structure PanelRow where
  panelId : String
  maxOutput : ℚ
  currentOutput : ℚ
  efficiency : ℚ
  status : String
  lastChecked : Option ℤ
deriving DecidableEq

structure ReadingRow where
  deviceId : String
  voltage : ℚ
  currentMa : ℚ
  powerMw : ℚ
  recordedAt : ℤ
deriving DecidableEq

/-- The tables touched by the sensor-update endpoint. -/
structure SensorDb where
  espDevices : List EspDevice
  readings : List ReadingRow
  panels : List PanelRow
  powerGeneration : List (ℤ × ℚ)
deriving DecidableEq

structure SensorUpdateOk where
  device : String
  panelCount : ℕ
  perPanelVoltage : ℚ
  perPanelCurrentMa : ℚ
  perPanelPowerW : ℚ
  panels : List (String × ℚ × ℚ × String)
deriving DecidableEq

inductive SensorResponse
  | badRequest (error : String)
  | notFound (error : String)
  | ok (payload : SensorUpdateOk)
deriving DecidableEq

def MISSING_FIELDS_MSG : String :=
  "Missing required fields: device_id, voltage, current, power"

/-- Panel status recomputed by the ingestion loop from the per-panel
share of the reported reading. -/
def ingestPanelStatus (voltagePerPanel powerPerPanelW : ℚ) : String :=
  if voltagePerPanel < MIN_WARNING_PANEL_VOLTAGE then "fault"
  else if voltagePerPanel < MIN_HEALTHY_PANEL_VOLTAGE ∨ powerPerPanelW ≤ 0 then "warning"
  else "healthy"

/-- One panel row update of the `for (const panel of panels)` loop. -/
def ingestUpdatePanel (now : ℤ) (voltagePerPanel powerPerPanelW : ℚ)
    (p : PanelRow) : PanelRow :=
  let efficiency := if 0 < p.maxOutput then powerPerPanelW / p.maxOutput * 100 else 0
  { p with
    currentOutput := powerPerPanelW
    efficiency := min 100 efficiency
    status := ingestPanelStatus voltagePerPanel powerPerPanelW
    lastChecked := some now }

/-- The `POST /sensor-update` handler: validate, check the static
mapping, upsert the device, append the reading, recompute each mapped
panel's output/efficiency/status, and upsert the coarse power-generation
point.  Every error path leaves the database untouched. -/
def sensorUpdate (now : ℤ) (body : SensorUpdateBody) (db : SensorDb) :
    SensorResponse × SensorDb :=
  match parseNumber body.voltage, parseNumber body.current, parseNumber body.power with
  | some voltage, some current, some power =>
    if jsFalsy body.device_id then (.badRequest MISSING_FIELDS_MSG, db)
    else
      let deviceKey := (bodyDeviceKey body.device_id).getD ""
      match deviceToPanelMap deviceKey with
      | none => (.notFound ("Device " ++ deviceKey ++ " not found in mapping"), db)
      | some panelIds =>
        if panelIds.isEmpty then
          (.notFound ("Device " ++ deviceKey ++ " not found in mapping"), db)
        else
          let panels := db.panels.filter (fun p => panelIds.contains p.panelId)
          if panels.isEmpty then
            (.notFound ("Panels not found: " ++ String.intercalate ", " panelIds), db)
          else
            let espDevices' :=
              if db.espDevices.any (fun d => d.deviceId == deviceKey) then
                db.espDevices.map (fun d =>
                  if d.deviceId == deviceKey then
                    { d with lastSeenAt := some now, latestVoltage := some voltage,
                             latestCurrentMa := some current, latestPowerMw := some power }
                  else d)
              else
                db.espDevices ++
                  [{ deviceId := deviceKey, lastSeenAt := some now,
                     latestVoltage := some voltage, latestCurrentMa := some current,
                     latestPowerMw := some power }]
            let readings' := db.readings ++
              [{ deviceId := deviceKey, voltage := voltage, currentMa := current,
                 powerMw := power, recordedAt := now }]
            let panelCount := panels.length
            let voltagePerPanel := voltage / (panelCount : ℚ)
            let currentPerPanel := current
            let powerPerPanelMw := power / (panelCount : ℚ)
            let powerPerPanelW := powerPerPanelMw / 1000
            let panels' := db.panels.map (fun p =>
              if panelIds.contains p.panelId then
                ingestUpdatePanel now voltagePerPanel powerPerPanelW p
              else p)
            let currentGenerationKw := ((panels'.map (·.currentOutput)).sum) / 1000
            let powerGeneration' :=
              if db.powerGeneration.any (fun e => e.1 == now) then
                db.powerGeneration.map (fun e =>
                  if e.1 == now then (now, currentGenerationKw) else e)
              else db.powerGeneration ++ [(now, currentGenerationKw)]
            (.ok { device := deviceKey, panelCount := panelCount,
                   perPanelVoltage := voltagePerPanel,
                   perPanelCurrentMa := currentPerPanel,
                   perPanelPowerW := powerPerPanelW,
                   panels := panels.map (fun p =>
                     let q := ingestUpdatePanel now voltagePerPanel powerPerPanelW p
                     (q.panelId, q.currentOutput, q.efficiency, q.status)) },
             { espDevices := espDevices', readings := readings', panels := panels',
               powerGeneration := powerGeneration' })
  | _, _, _ => (.badRequest MISSING_FIELDS_MSG, db)

/-! ### Vision-result intake (`pi_analysis_result` socket handler and
`POST /api/solar-scans`) -/

structure ThermalBlock where
  min_temp : Option ℚ
  max_temp : Option ℚ
  mean_temp : Option ℚ
  delta : Option ℚ
  risk_score : Option ℚ
  severity : Option String
deriving DecidableEq

def emptyThermalBlock : ThermalBlock := ⟨none, none, none, none, none, none⟩

structure PiPanelCropInput where
  panel_number : Option String
  status : Option String
  has_dust : Option Bool
deriving DecidableEq

structure PiReport where
  health_score : Option ℚ
deriving DecidableEq

structure RgbStats where
  total : Option ℕ
  clean : Option ℕ
  dusty : Option ℕ
deriving DecidableEq

/-- The fields of the inbound `pi_analysis_result` payload that the
stored scan depends on; image payloads and free-text report fields are
elided. -/
structure PiAnalysisResultInput where
  capture_id : Option String
  report : Option PiReport
  rgb_stats : Option RgbStats
  thermal : Option ThermalBlock
  thermal_stats : Option ThermalBlock
  panel_crops : List PiPanelCropInput
deriving DecidableEq

/-- Source `getSeverityFromHealthScore`. -/
def getSeverityFromHealthScore (healthScore : ℚ) : String :=
  if healthScore < 30 then "CRITICAL"
  else if healthScore < 50 then "HIGH"
  else if healthScore < 75 then "MODERATE"
  else "LOW"

/-- JS `Math.round` (round half toward positive infinity). -/
def jsRound (q : ℚ) : ℤ := ⌊q + 1 / 2⌋

/-- `Number(data.report.health_score ?? 0)`. -/
def healthScoreOf (d : PiAnalysisResultInput) : ℚ :=
  (d.report.bind (·.health_score)).getD 0

/-- `const thermalBlock = data.thermal ?? data.thermal_stats ?? {}`. -/
def resolvedThermalBlock (d : PiAnalysisResultInput) : ThermalBlock :=
  match d.thermal with
  | some t => t
  | none =>
      match d.thermal_stats with
      | some t => t
      | none => emptyThermalBlock

/-- `thermalBlock.severity ?? getSeverityFromHealthScore(healthScore)`. -/
def scanSeverity (d : PiAnalysisResultInput) : String :=
  (resolvedThermalBlock d).severity.getD (getSeverityFromHealthScore (healthScoreOf d))

/-- `thermalBlock.risk_score ?? Math.max(0, Math.min(100, Math.round(100 - healthScore)))`. -/
def scanRiskScore (d : PiAnalysisResultInput) : ℚ :=
  ((resolvedThermalBlock d).risk_score).getD
    ((max 0 (min 100 (jsRound (100 - healthScoreOf d))) : ℤ) : ℚ)

structure PanelCropForClients where
  panel_number : String
  status : String
  has_dust : Bool
deriving DecidableEq

/-- The `panelCropsInput.forEach(...)` normalisation: default panel
number `P<index+1>`, default status UNKNOWN, dust flag defaulting to
`status === 'DUSTY'`. -/
def panelCropsForClients (crops : List PiPanelCropInput) : List PanelCropForClients :=
  crops.enum.map (fun ic =>
    let status := ic.2.status.getD "UNKNOWN"
    { panel_number := ic.2.panel_number.getD ("P" ++ toString (ic.1 + 1))
      status := status
      has_dust := ic.2.has_dust.getD (status == "DUSTY") })

structure ScanRow where
  scanId : ℕ
  status : String
  severity : Option String
  riskScore : Option ℚ
  dustyPanelCount : ℕ
  cleanPanelCount : ℕ
  totalPanels : ℕ
deriving DecidableEq

structure PanelDetectionRow where
  scanId : ℕ
  panelNumber : String
  status : String
  faultType : Option String
deriving DecidableEq

structure ScanDb where
  scans : List ScanRow
  detections : List PanelDetectionRow
deriving DecidableEq

/-- The scan row built by the `pi_analysis_result` handler's
`prisma.solarScan.create` data block (claim-relevant fields). -/
def piAnalysisScanRow (newId : ℕ) (d : PiAnalysisResultInput) : ScanRow :=
  let crops := panelCropsForClients d.panel_crops
  { scanId := newId
    status := "pending"
    severity := some (scanSeverity d)
    riskScore := some (scanRiskScore d)
    dustyPanelCount :=
      (d.rgb_stats.bind (·.dusty)).getD
        ((crops.filter (fun c => c.status == "DUSTY")).length)
    cleanPanelCount :=
      (d.rgb_stats.bind (·.clean)).getD
        ((crops.filter (fun c => c.status == "CLEAN")).length)
    totalPanels := (d.rgb_stats.bind (·.total)).getD crops.length }

/-- The nested `panelDetections.create` child rows of the same create. -/
def piAnalysisDetections (newId : ℕ) (d : PiAnalysisResultInput) :
    List PanelDetectionRow :=
  (panelCropsForClients d.panel_crops).map (fun crop =>
    { scanId := newId
      panelNumber := crop.panel_number
      status := crop.status
      faultType := if crop.has_dust then some "dust" else none })

/-- Persistence of the socket path: one `prisma.solarScan.create` with
nested `panelDetections.create` children — a single database operation
that either commits the scan together with every detection or fails as
a whole (`ok` is the call's outcome). -/
def piAnalysisPersist (db : ScanDb) (d : PiAnalysisResultInput) (newId : ℕ)
    (ok : Bool) : Bool × ScanDb :=
  if ok then
    (true, { scans := db.scans ++ [piAnalysisScanRow newId d],
             detections := db.detections ++ piAnalysisDetections newId d })
  else (false, db)

structure SolarScanPostPanel where
  panel_number : Option String
  status : Option String
deriving DecidableEq

/-- Persistence of `POST /api/solar-scans`: the scan row is created
first (outcome `scanOk`), then one `panelDetection.create` per panel is
issued via `Promise.all` (outcomes `detOks`); detection creates that
succeed are persisted even when a sibling fails, and a failed sibling
only fails the response, not the already-created scan.  Thermal/device
fields of the scan row are elided. -/
def solarScansPost (db : ScanDb) (newId : ℕ) (panels : List SolarScanPostPanel)
    (scanOk : Bool) (detOks : List Bool) : Bool × ScanDb :=
  if scanOk then
    let scan : ScanRow :=
      { scanId := newId, status := "pending", severity := none, riskScore := none,
        dustyPanelCount := (panels.filter (fun p => p.status == some "DUSTY")).length,
        cleanPanelCount := (panels.filter (fun p => p.status == some "CLEAN")).length,
        totalPanels := panels.length }
    let detRows := panels.map (fun p =>
      ({ scanId := newId, panelNumber := p.panel_number.getD "Unknown",
         status := p.status.getD "UNKNOWN", faultType := none } : PanelDetectionRow))
    let created := ((detRows.zip detOks).filter (fun z => z.2)).map (fun z => z.1)
    ((detRows.zip detOks).all (fun z => z.2),
     { scans := db.scans ++ [scan], detections := db.detections ++ created })
  else (false, db)

/-! ### Broadcast backlog (`piResults`) -/

def MAX_PI_RESULTS : ℕ := 50

structure PiResultForClients where
  id : ℕ
  capture_id : String
deriving DecidableEq

/-- `piResults.unshift(result); if (piResults.length > MAX_PI_RESULTS)
piResults.length = MAX_PI_RESULTS`. -/
def pushPiResult (piResults : List PiResultForClients) (r : PiResultForClients) :
    List PiResultForClients :=
  let l := r :: piResults
  if MAX_PI_RESULTS < l.length then l.take MAX_PI_RESULTS else l

/-- Replay on connect: `piResults.forEach((result) => socket.emit(...))`
delivers the backlog in array order. -/
def replayOnConnect (piResults : List PiResultForClients) : List PiResultForClients :=
  piResults

/-! ### Supporting lemmas for the compositor and the backlog -/

theorem liveDeviceRow_deviceId (now : ℤ) (device : Option EspDevice) (id : String) :
    (liveDeviceRow now device id).deviceId = id := rfl

theorem liveDeviceRow_online (now : ℤ) (device : Option EspDevice) (id : String) :
    (liveDeviceRow now device id).online =
      getDeviceOnline (device.bind (·.lastSeenAt)) now := rfl

theorem liveDeviceRow_powerMw (now : ℤ) (device : Option EspDevice) (id : String) :
    (liveDeviceRow now device id).powerMw =
      if getDeviceOnline (device.bind (·.lastSeenAt)) now
      then (device.bind (·.latestPowerMw)).getD 0 else 0 := rfl

theorem liveDevices_ids (now : ℤ) (dbDevices : List EspDevice) :
    (liveDevices now dbDevices).map (·.deviceId) = deviceIdsList := by
  unfold liveDevices
  rw [List.map_map]
  have : ∀ id ∈ deviceIdsList,
      ((fun r : LiveDeviceRow => r.deviceId) ∘
        (fun id => liveDeviceRow now (mapGet (dbDeviceById dbDevices) id) id)) id = id :=
    fun id _ => rfl
  rw [List.map_congr_left this]
  simp

theorem deviceIdsList_nodup : deviceIdsList.Nodup := by decide

theorem liveDevices_ids_nodup (now : ℤ) (dbDevices : List EspDevice) :
    ((liveDevices now dbDevices).map (·.deviceId)).Nodup := by
  rw [liveDevices_ids]
  exact deviceIdsList_nodup

theorem filter_contains_online (rows : List LiveDeviceRow)
    (hnd : (rows.map (·.deviceId)).Nodup) :
    rows.filter (fun r => (onlineDeviceIds rows).contains r.deviceId) =
      rows.filter (·.online) := by
  apply List.filter_congr
  intro r hr
  rcases honline : r.online with _ | _
  · rw [← Bool.not_eq_true]
    intro hc
    have hmem : r.deviceId ∈ onlineDeviceIds rows := List.elem_iff.mp hc
    unfold onlineDeviceIds at hmem
    rcases List.mem_map.mp hmem with ⟨r', hr', hid⟩
    rcases List.mem_filter.mp hr' with ⟨hr'mem, hr'on⟩
    have : r' = r := List.inj_on_of_nodup_map hnd hr'mem hr hid
    rw [this] at hr'on
    rw [honline] at hr'on
    exact Bool.false_ne_true hr'on
  · apply List.elem_iff.mpr
    unfold onlineDeviceIds
    exact List.mem_map.mpr ⟨r, List.mem_filter.mpr ⟨hr, honline⟩, rfl⟩

theorem onlinePowerMw_eq_sum_online (now : ℤ) (dbDevices : List EspDevice) :
    onlinePowerMw (liveDevices now dbDevices) =
      (((liveDevices now dbDevices).filter (·.online)).map (·.powerMw)).sum := by
  unfold onlinePowerMw
  rw [filter_contains_online _ (liveDevices_ids_nodup now dbDevices)]

theorem take_append_take {α : Type _} (xs ys : List α) (n : ℕ) :
    (xs ++ ys.take n).take n = (xs ++ ys).take n := by
  rcases le_or_lt n xs.length with h | h
  · rw [List.take_append_of_le_length h, List.take_append_of_le_length h]
  · rw [List.take_append_eq_append_take, List.take_append_eq_append_take,
      List.take_take]
    have : (n - xs.length) ⊓ n = n - xs.length := by omega
    rw [this]

theorem pushPiResult_eq_take (acc : List PiResultForClients) (r : PiResultForClients)
    (h : acc.length ≤ MAX_PI_RESULTS) :
    pushPiResult acc r = (r :: acc).take MAX_PI_RESULTS := by
  unfold pushPiResult
  by_cases hlen : MAX_PI_RESULTS < (r :: acc).length
  · simp [hlen]
  · rw [if_neg hlen, List.take_of_length_le (le_of_not_lt hlen)]

theorem foldl_pushPiResult (rs : List PiResultForClients) :
    ∀ acc : List PiResultForClients, acc.length ≤ MAX_PI_RESULTS →
      rs.foldl pushPiResult acc = (rs.reverse ++ acc).take MAX_PI_RESULTS := by
  induction rs with
  | nil =>
    intro acc h
    simp [List.take_of_length_le h]
  | cons r rs ih =>
    intro acc h
    rw [List.foldl_cons]
    have hpush : (pushPiResult acc r).length ≤ MAX_PI_RESULTS := by
      rw [pushPiResult_eq_take acc r h, List.length_take]
      exact min_le_left _ _
    rw [ih (pushPiResult acc r) hpush, pushPiResult_eq_take acc r h,
      List.reverse_cons, List.append_assoc, take_append_take]
    rfl

/-! ### Case analysis helpers for the ingestion endpoint -/

theorem sensorUpdate_panels_cases (now : ℤ) (body : SensorUpdateBody) (db : SensorDb) :
    (sensorUpdate now body db).2.panels = db.panels ∨
    ∃ (panelIds : List String) (voltagePerPanel powerPerPanelW : ℚ),
      (sensorUpdate now body db).2.panels =
        db.panels.map (fun q =>
          if panelIds.contains q.panelId then
            ingestUpdatePanel now voltagePerPanel powerPerPanelW q
          else q) := by
  unfold sensorUpdate
  rcases parseNumber body.voltage with _ | v
  · left
    rfl
  rcases parseNumber body.current with _ | c
  · left
    rfl
  rcases parseNumber body.power with _ | pw
  · left
    rfl
  dsimp only
  by_cases hf : jsFalsy body.device_id
  · rw [if_pos hf]
    left
    rfl
  rw [if_neg hf]
  rcases deviceToPanelMap ((bodyDeviceKey body.device_id).getD "") with _ | panelIds
  · left
    rfl
  dsimp only
  by_cases hempty : panelIds.isEmpty
  · rw [if_pos hempty]
    left
    rfl
  rw [if_neg hempty]
  by_cases hpanels : (db.panels.filter (fun q => panelIds.contains q.panelId)).isEmpty
  · rw [if_pos hpanels]
    left
    rfl
  rw [if_neg hpanels]
  dsimp only
  right
  refine ⟨panelIds,
    v / (((db.panels.filter (fun q => panelIds.contains q.panelId)).length : ℕ) : ℚ),
    pw / (((db.panels.filter (fun q => panelIds.contains q.panelId)).length : ℕ) : ℚ) / 1000,
    ?_⟩
  rfl

/-! ### The claims -/

/-- C1: The status classification of `GET /live-status` is total and
ordered: a device whose last reading is more than the 30-second online
threshold old is reported offline regardless of its stored
voltage/current/power; an online device is `fault` when its per-panel
voltage is below the 4.5 V fault threshold, else `warning` when its
per-panel voltage is below the 6 V healthy threshold or its power is
≤ 0, else `healthy`.  `withDeviceSensorData` likewise forces the panels
of a non-online device to `offline`. -/
theorem C1_status_classification (now : ℤ) (dev : EspDevice) (id : String) :
    (∀ t, dev.lastSeenAt = some t → DEVICE_ONLINE_THRESHOLD_MS < now - t →
      (liveDeviceRow now (some dev) id).status = "offline") ∧
    (getDeviceOnline dev.lastSeenAt now = true →
      ∀ v, dev.latestVoltage = some v →
        ((v / (panelCountOf id : ℚ) < MIN_WARNING_PANEL_VOLTAGE →
            (liveDeviceRow now (some dev) id).status = "fault") ∧
         (MIN_WARNING_PANEL_VOLTAGE ≤ v / (panelCountOf id : ℚ) →
            (v / (panelCountOf id : ℚ) < MIN_HEALTHY_PANEL_VOLTAGE ∨
              dev.latestPowerMw.getD 0 ≤ 0) →
            (liveDeviceRow now (some dev) id).status = "warning") ∧
         (MIN_HEALTHY_PANEL_VOLTAGE ≤ v / (panelCountOf id : ℚ) →
            0 < dev.latestPowerMw.getD 0 →
            (liveDeviceRow now (some dev) id).status = "healthy"))) ∧
    (∀ panelStatus perPanelVoltage,
      withSensorDerivedStatus panelStatus false perPanelVoltage = "offline") := by
  refine ⟨?_, ?_, ?_⟩
  · intro t ht hgt
    have hoff : getDeviceOnline dev.lastSeenAt now = false := by
      rw [ht]
      unfold getDeviceOnline
      simp [not_le.mpr hgt]
    simp [liveDeviceRow, hoff]
  · intro hon v hv
    have hstat : (liveDeviceRow now (some dev) id).status =
        if v / (panelCountOf id : ℚ) < MIN_WARNING_PANEL_VOLTAGE then "fault"
        else if v / (panelCountOf id : ℚ) < MIN_HEALTHY_PANEL_VOLTAGE ∨
          dev.latestPowerMw.getD 0 ≤ 0 then "warning"
        else "healthy" := by
      simp only [liveDeviceRow, Option.bind_eq_bind, Option.some_bind, hon, hv,
        if_true, Option.map_some, optLt]
      by_cases h1 : v / (panelCountOf id : ℚ) < MIN_WARNING_PANEL_VOLTAGE
      · simp [h1]
      · by_cases h2 : v / (panelCountOf id : ℚ) < MIN_HEALTHY_PANEL_VOLTAGE ∨
          dev.latestPowerMw.getD 0 ≤ 0
        · rcases h2 with h2 | h2 <;> simp [h1, h2]
        · push_neg at h2
          simp [h1, not_lt.mpr h2.1, not_le.mpr h2.2]
    refine ⟨?_, ?_, ?_⟩
    · intro h1
      rw [hstat, if_pos h1]
    · intro h1 h2
      rw [hstat, if_neg (not_lt.mpr h1), if_pos h2]
    · intro h1 h2
      rw [hstat, if_neg (not_lt.mpr (le_trans (by norm_num [MIN_WARNING_PANEL_VOLTAGE,
        MIN_HEALTHY_PANEL_VOLTAGE]) h1))]
      rw [if_neg]
      push_neg
      exact ⟨h1, h2⟩
  · intro panelStatus perPanelVoltage
    rfl

/-- C1 witness: a stale device is offline whatever its readings; online
devices with per-panel voltages 13/3 V, 5 V and 7 V (power 3000 mW) are
fault, warning and healthy respectively. -/
theorem C1_witness :
    (liveDeviceRow 31000 (some ⟨"ESP_01", some 0, some 21, some 100, some 3000⟩)
      "ESP_01").status = "offline" ∧
    (liveDeviceRow 0 (some ⟨"ESP_01", some 0, some 13, some 100, some 3000⟩)
      "ESP_01").status = "fault" ∧
    (liveDeviceRow 0 (some ⟨"ESP_01", some 0, some 15, some 100, some 3000⟩)
      "ESP_01").status = "warning" ∧
    (liveDeviceRow 0 (some ⟨"ESP_01", some 0, some 21, some 100, some 3000⟩)
      "ESP_01").status = "healthy" := by
  have hcount : panelCountOf "ESP_01" = 3 := by decide
  refine ⟨?_, ?_, ?_, ?_⟩
  · exact (C1_status_classification 31000 ⟨"ESP_01", some 0, some 21, some 100, some 3000⟩
      "ESP_01").1 0 rfl (by decide)
  · exact ((C1_status_classification 0 ⟨"ESP_01", some 0, some 13, some 100, some 3000⟩
      "ESP_01").2.1 (by decide) 13 rfl).1
      (by rw [hcount]; norm_num [MIN_WARNING_PANEL_VOLTAGE])
  · exact (((C1_status_classification 0 ⟨"ESP_01", some 0, some 15, some 100, some 3000⟩
      "ESP_01").2.1 (by decide) 15 rfl).2.1
      (by rw [hcount]; norm_num [MIN_WARNING_PANEL_VOLTAGE])
      (Or.inl (by rw [hcount]; norm_num [MIN_HEALTHY_PANEL_VOLTAGE])))
  · exact (((C1_status_classification 0 ⟨"ESP_01", some 0, some 21, some 100, some 3000⟩
      "ESP_01").2.1 (by decide) 21 rfl).2.2
      (by rw [hcount]; norm_num [MIN_HEALTHY_PANEL_VOLTAGE])
      (by norm_num [Option.getD_some]))

/-- C2: The history aggregator assigns each reading the bucket key
`floor(timestamp / 30 s) × 30 s`; a bucket appears in the output exactly
when some reading falls in it (empty buckets are omitted); the output is
strictly ascending by bucket start; and every output point carries, per
device present in its bucket, only the reading with the latest
recorded-at (last-write-wins, devices independent), reporting the sum of
those kept readings' powers and the count of distinct devices. -/
theorem C2_power_history_aggregator (rs : List EspReadingRec) :
    (powerHistory30s rs).Pairwise (fun p q => p.timestamp < q.timestamp) ∧
    (∀ b : ℤ, (∃ p ∈ powerHistory30s rs, p.timestamp = b) ↔
      ∃ r ∈ rs, bucketKeyOf r.recordedAt = b) ∧
    (∀ p ∈ powerHistory30s rs, ∃ kept : List EspReadingRec,
      (kept.map (·.deviceId)).Nodup ∧
      p.deviceCount = kept.length ∧
      (∀ d, d ∈ kept.map (·.deviceId) ↔ InBucket rs p.timestamp d) ∧
      (∀ k ∈ kept, KeptReading rs p.timestamp k.deviceId k) ∧
      p.totalPowerKw = ((kept.map (·.powerMw)).sum) / 1000000) :=
  ⟨powerHistory_pairwise_lt rs, powerHistory_mem_iff rs, powerHistory_point_spec rs⟩

def sampleReadings : List EspReadingRec :=
  [⟨"ESP_01", 300, 0⟩, ⟨"ESP_01", 310, 10000⟩, ⟨"ESP_02", 200, 5000⟩,
   ⟨"ESP_01", 290, 35000⟩]

/-- C2 witness: the sample snapshot has an output bucket at 30000 ms
(the reading at 35000 ms falls in it) and none at 60000 ms. -/
theorem C2_witness :
    ∃ p ∈ powerHistory30s sampleReadings, p.timestamp = 30000 := by
  refine ((C2_power_history_aggregator sampleReadings).2.1 30000).mpr
    ⟨⟨"ESP_01", 290, 35000⟩, ?_, ?_⟩
  · simp [sampleReadings]
  · show (⌊(35000 : ℚ) / (DEVICE_ONLINE_THRESHOLD_MS : ℚ)⌋ *
      DEVICE_ONLINE_THRESHOLD_MS : ℤ) = 30000
    norm_num [DEVICE_ONLINE_THRESHOLD_MS]

/-- C3: In the live-status snapshot the reported current generation sums
the power of online devices only — every offline device's row carries
power 0 rather than its stored last reading, while an online row carries
the stored reading — and, when some device is online and its mapped
panels have positive summed rated output, the reported efficiency is
online power over that rated output as a percentage, capped at 100 (and
it never exceeds 100 on any input). -/
theorem C3_online_generation (now : ℤ) (dbDevices : List EspDevice)
    (mappedPanels : List (String × ℚ)) :
    (onlinePowerMw (liveDevices now dbDevices) =
      (((liveDevices now dbDevices).filter (·.online)).map (·.powerMw)).sum) ∧
    (∀ row ∈ liveDevices now dbDevices, row.online = false → row.powerMw = 0) ∧
    (∀ row ∈ liveDevices now dbDevices, row.online = true →
      row.powerMw =
        ((mapGet (dbDeviceById dbDevices) row.deviceId).bind (·.latestPowerMw)).getD 0) ∧
    (currentGenerationKwFromEsp (liveDevices now dbDevices) =
      onlinePowerMw (liveDevices now dbDevices) / 1000000) ∧
    ((onlineDeviceIds (liveDevices now dbDevices)).length ≠ 0 →
      0 < onlineMappedMaxOutputW (liveDevices now dbDevices) mappedPanels →
      efficiencyFromEsp (liveDevices now dbDevices) mappedPanels =
        min 100 (onlinePowerMw (liveDevices now dbDevices) / 1000 /
          onlineMappedMaxOutputW (liveDevices now dbDevices) mappedPanels * 100)) ∧
    efficiencyFromEsp (liveDevices now dbDevices) mappedPanels ≤ 100 := by
  refine ⟨onlinePowerMw_eq_sum_online now dbDevices, ?_, ?_, rfl, ?_, ?_⟩
  · intro row hrow hoff
    rcases List.mem_map.mp hrow with ⟨id, _, hrow⟩
    rw [← hrow]
    rw [← hrow] at hoff
    rw [liveDeviceRow_online] at hoff
    rw [liveDeviceRow_powerMw, hoff]
    rfl
  · intro row hrow hon
    rcases List.mem_map.mp hrow with ⟨id, _, hrow⟩
    rw [← hrow]
    rw [← hrow] at hon
    rw [liveDeviceRow_online] at hon
    rw [liveDeviceRow_powerMw, hon, liveDeviceRow_deviceId]
    rfl
  · intro h1 h2
    unfold efficiencyFromEsp
    rw [if_neg h1, if_pos h2]
  · unfold efficiencyFromEsp
    by_cases h1 : (onlineDeviceIds (liveDevices now dbDevices)).length = 0
    · rw [if_pos h1]
      norm_num
    · rw [if_neg h1]
      by_cases h2 : 0 < onlineMappedMaxOutputW (liveDevices now dbDevices) mappedPanels
      · rw [if_pos h2]
        exact min_le_left _ _
      · rw [if_neg h2]
        norm_num

def sampleDevices : List EspDevice :=
  [⟨"ESP_01", some 0, some 21, some 100, some 3000⟩,
   ⟨"ESP_02", some (-100000), some 20, some 90, some 5000⟩]

/-- C3 witness: at `now = 1000` the sample fleet has ESP_01 online and
ESP_02 offline (last seen 101 s ago); the offline row's reported power is
0 even though its stored reading was 5000 mW, and the online row reports
its stored 3000 mW. -/
theorem C3_witness :
    (liveDeviceRow 1000 (mapGet (dbDeviceById sampleDevices) "ESP_02") "ESP_02").powerMw
        = 0 ∧
    (liveDeviceRow 1000 (mapGet (dbDeviceById sampleDevices) "ESP_01") "ESP_01").powerMw
        = ((mapGet (dbDeviceById sampleDevices)
            (liveDeviceRow 1000 (mapGet (dbDeviceById sampleDevices) "ESP_01")
              "ESP_01").deviceId).bind (·.latestPowerMw)).getD 0 := by
  have hmem2 : liveDeviceRow 1000 (mapGet (dbDeviceById sampleDevices) "ESP_02")
      "ESP_02" ∈ liveDevices 1000 sampleDevices :=
    List.mem_map.mpr ⟨"ESP_02", by decide, rfl⟩
  have hmem1 : liveDeviceRow 1000 (mapGet (dbDeviceById sampleDevices) "ESP_01")
      "ESP_01" ∈ liveDevices 1000 sampleDevices :=
    List.mem_map.mpr ⟨"ESP_01", by decide, rfl⟩
  constructor
  · exact (C3_online_generation 1000 sampleDevices []).2.1
      (liveDeviceRow 1000 (mapGet (dbDeviceById sampleDevices) "ESP_02") "ESP_02")
      hmem2 (by rw [liveDeviceRow_online]; decide)
  · exact (C3_online_generation 1000 sampleDevices []).2.2.1
      (liveDeviceRow 1000 (mapGet (dbDeviceById sampleDevices) "ESP_01") "ESP_01")
      hmem1 (by rw [liveDeviceRow_online]; decide)

/-- C4 counterexample: on the `POST /api/solar-scans` path, a request
with one detected panel whose scan create succeeds but whose detection
create fails leaves a Scan row with zero PanelDetection rows — the
creation is not all-or-nothing. -/
theorem C4_counterexample :
    (solarScansPost ⟨[], []⟩ 1 [⟨some "P1", some "DUSTY"⟩] true [false]).2 =
      ⟨[⟨1, "pending", none, none, 1, 0, 1⟩], []⟩ := by
  decide

/-- C4 (amended): on the socket ingestion path (`pi_analysis_result`),
persistence is all-or-nothing — the single nested create either leaves
the database untouched or appends the Scan row together with one
PanelDetection row per detected panel crop; the HTTP `POST
/api/solar-scans` path creates the scan and its detections separately
and can leave a Scan with fewer detections than the input. -/
theorem C4_nested_create_atomic (db : ScanDb) (d : PiAnalysisResultInput)
    (newId : ℕ) (ok : Bool) :
    (piAnalysisPersist db d newId ok).2 = db ∨
    ((piAnalysisPersist db d newId ok).2.scans =
        db.scans ++ [piAnalysisScanRow newId d] ∧
     (piAnalysisPersist db d newId ok).2.detections =
        db.detections ++ piAnalysisDetections newId d ∧
     (piAnalysisDetections newId d).length = d.panel_crops.length) := by
  unfold piAnalysisPersist
  cases ok
  · left
    rfl
  · right
    refine ⟨rfl, rfl, ?_⟩
    unfold piAnalysisDetections panelCropsForClients
    simp

/-- C5: An electrical-reading request with numeric readings and a
non-empty device id that is absent from the static device→panel mapping
is answered with the not-found error and leaves every table exactly as
it was. -/
theorem C5_unmapped_device (now : ℤ) (id : String) (v c p : ℚ) (db : SensorDb)
    (hid : id ≠ "") (hmap : deviceToPanelMap id = none) :
    sensorUpdate now
        ⟨some (.str id), some (.num v), some (.num c), some (.num p)⟩ db =
      (.notFound ("Device " ++ id ++ " not found in mapping"), db) := by
  unfold sensorUpdate
  dsimp only [parseNumber]
  have hfalsy : jsFalsy (some (.str id)) = false := by
    unfold jsFalsy
    simp [hid]
  rw [hfalsy]
  dsimp only [Bool.false_eq_true, if_false, bodyDeviceKey, Option.getD_some]
  rw [hmap]
  rfl

/-- C5 witness: posting device id `ESP_99` with numeric readings yields
the not-found response and an unchanged (empty) database. -/
theorem C5_witness :
    sensorUpdate 0
        ⟨some (.str "ESP_99"), some (.num 12), some (.num 100), some (.num 1000)⟩
        ⟨[], [], [], []⟩ =
      (.notFound "Device ESP_99 not found in mapping", ⟨[], [], [], []⟩) :=
  C5_unmapped_device 0 "ESP_99" 12 100 1000 ⟨[], [], [], []⟩
    (by decide) (by decide)

/-- C6: An electrical-reading request whose device id is missing (or
falsy) or in which any of voltage, current, power is missing or not
numeric is rejected with the validation error before any persistence
attempt, leaving all stored state unchanged. -/
theorem C6_validation (now : ℤ) (body : SensorUpdateBody) (db : SensorDb)
    (h : jsFalsy body.device_id = true ∨ parseNumber body.voltage = none ∨
      parseNumber body.current = none ∨ parseNumber body.power = none) :
    sensorUpdate now body db = (.badRequest MISSING_FIELDS_MSG, db) := by
  rcases hv : parseNumber body.voltage with _ | v
  · unfold sensorUpdate
    rw [hv]
  · rcases hc : parseNumber body.current with _ | c
    · unfold sensorUpdate
      rw [hv, hc]
    · rcases hp : parseNumber body.power with _ | p
      · unfold sensorUpdate
        rw [hv, hc, hp]
      · have hf : jsFalsy body.device_id = true := by
          rcases h with hf | h | h | h
          · exact hf
          · rw [hv] at h
            exact absurd h (by simp)
          · rw [hc] at h
            exact absurd h (by simp)
          · rw [hp] at h
            exact absurd h (by simp)
        unfold sensorUpdate
        rw [hv, hc, hp]
        dsimp only
        rw [hf]
        rfl

/-- C6 witness: `{device_id: "ESP_01", voltage: "abc", current: 10,
power: 10}` is rejected with the validation error and the (empty)
database is unchanged. -/
theorem C6_witness :
    sensorUpdate 0
        ⟨some (.str "ESP_01"), some (.str "abc"), some (.num 10), some (.num 10)⟩
        ⟨[], [], [], []⟩ =
      (.badRequest MISSING_FIELDS_MSG, ⟨[], [], [], []⟩) :=
  C6_validation 0
    ⟨some (.str "ESP_01"), some (.str "abc"), some (.num 10), some (.num 10)⟩
    ⟨[], [], [], []⟩ (Or.inr (Or.inl (by decide)))

/-- C7: For every vision result on the socket path, the stored severity
is the resolved thermal block's explicit severity when present and is
otherwise derived from the health score by the <30 → CRITICAL, <50 →
HIGH, <75 → MODERATE, else LOW mapping; and when no explicit risk score
is present the stored risk score is round(100 − health score) clamped to
[0, 100]. -/
theorem C7_severity_risk (newId : ℕ) (d : PiAnalysisResultInput) :
    (∀ s, (resolvedThermalBlock d).severity = some s →
      (piAnalysisScanRow newId d).severity = some s) ∧
    ((resolvedThermalBlock d).severity = none →
      (piAnalysisScanRow newId d).severity =
        some (getSeverityFromHealthScore (healthScoreOf d))) ∧
    (∀ h : ℚ, (h < 30 → getSeverityFromHealthScore h = "CRITICAL") ∧
      (30 ≤ h → h < 50 → getSeverityFromHealthScore h = "HIGH") ∧
      (50 ≤ h → h < 75 → getSeverityFromHealthScore h = "MODERATE") ∧
      (75 ≤ h → getSeverityFromHealthScore h = "LOW")) ∧
    ((resolvedThermalBlock d).risk_score = none →
      (piAnalysisScanRow newId d).riskScore =
        some ((max 0 (min 100 (jsRound (100 - healthScoreOf d))) : ℤ) : ℚ)) ∧
    (0 : ℤ) ≤ max 0 (min 100 (jsRound (100 - healthScoreOf d))) ∧
    max 0 (min 100 (jsRound (100 - healthScoreOf d))) ≤ 100 := by
  refine ⟨?_, ?_, ?_, ?_, le_max_left 0 _, ?_⟩
  · intro s hs
    show some (scanSeverity d) = some s
    unfold scanSeverity
    rw [hs]
    rfl
  · intro hs
    show some (scanSeverity d) = _
    unfold scanSeverity
    rw [hs]
    rfl
  · intro h
    refine ⟨?_, ?_, ?_, ?_⟩
    · intro h1
      unfold getSeverityFromHealthScore
      rw [if_pos h1]
    · intro h1 h2
      unfold getSeverityFromHealthScore
      rw [if_neg (not_lt.mpr h1), if_pos h2]
    · intro h1 h2
      unfold getSeverityFromHealthScore
      rw [if_neg (not_lt.mpr (le_trans (by norm_num) h1)),
        if_neg (not_lt.mpr h1), if_pos h2]
    · intro h1
      unfold getSeverityFromHealthScore
      rw [if_neg (not_lt.mpr (le_trans (by norm_num) h1)),
        if_neg (not_lt.mpr (le_trans (by norm_num) h1)),
        if_neg (not_lt.mpr h1)]
  · intro hr
    show some (scanRiskScore d) = _
    unfold scanRiskScore
    rw [hr]
    rfl
  · exact max_le (by norm_num) (min_le_left _ _)

/-- C7 witness: with no thermal block and health score 20 the stored
severity is CRITICAL and the stored risk score is 80; an explicit
thermal severity LOW overrides the health-score derivation. -/
theorem C7_witness :
    (piAnalysisScanRow 1 ⟨some "41", some ⟨some 20⟩, none, none, none, []⟩).severity =
      some "CRITICAL" ∧
    (piAnalysisScanRow 1 ⟨some "41", some ⟨some 20⟩, none, none, none, []⟩).riskScore =
      some 80 ∧
    (piAnalysisScanRow 2 ⟨some "42", some ⟨some 20⟩, none,
        some ⟨none, none, none, none, some 55, some "LOW"⟩, none, []⟩).severity =
      some "LOW" := by
  refine ⟨?_, ?_, ?_⟩
  · have h := (C7_severity_risk 1 ⟨some "41", some ⟨some 20⟩, none, none, none, []⟩).2.1
      (by decide)
    rw [h]
    have h2 := ((C7_severity_risk 1
      ⟨some "41", some ⟨some 20⟩, none, none, none, []⟩).2.2.1 20).1 (by norm_num)
    rw [show healthScoreOf ⟨some "41", some ⟨some 20⟩, none, none, none, []⟩ = 20 from rfl,
      h2]
  · have h := (C7_severity_risk 1
      ⟨some "41", some ⟨some 20⟩, none, none, none, []⟩).2.2.2.1 (by decide)
    rw [h]
    norm_num [healthScoreOf, jsRound]
  · exact (C7_severity_risk 2 ⟨some "42", some ⟨some 20⟩, none,
      some ⟨none, none, none, none, some 55, some "LOW"⟩, none, []⟩).1 "LOW" (by decide)

/-- C8: The broadcast backlog never holds more than 50 results and
replay-on-connect delivers exactly the most recent results newest
first: after any sequence of ingestions the backlog is the reversed
ingestion sequence truncated to 50, replay delivers exactly that list,
and its length is min(n, 50). -/
theorem C8_backlog_cap (rs : List PiResultForClients) :
    rs.foldl pushPiResult [] = rs.reverse.take MAX_PI_RESULTS ∧
    replayOnConnect (rs.foldl pushPiResult []) = rs.reverse.take MAX_PI_RESULTS ∧
    (rs.foldl pushPiResult []).length = min rs.length MAX_PI_RESULTS := by
  have h := foldl_pushPiResult rs [] (by simp)
  rw [List.append_nil] at h
  refine ⟨h, h, ?_⟩
  rw [h, List.length_take, List.length_reverse]
  omega

/-- C9: Computing a per-panel voltage never divides by zero: the shared
divisor expression treats a missing mapping or an empty configured panel
list as 1 and is positive (hence nonzero in ℚ) for every device id. -/
theorem C9_panel_count_divisor (id : String) :
    0 < panelCountOf id ∧ ((panelCountOf id : ℚ) ≠ 0) ∧
    (deviceToPanelMap id = none → panelCountOf id = 1) ∧
    (deviceToPanelMap id = some [] → panelCountOf id = 1) := by
  have hpos : 0 < panelCountOf id := by
    unfold panelCountOf
    dsimp only
    split
    · exact Nat.one_pos
    · rename_i hne
      exact Nat.pos_of_ne_zero hne
  refine ⟨hpos, ?_, ?_, ?_⟩
  · exact_mod_cast Nat.pos_iff_ne_zero.mp hpos
  · intro h
    simp [panelCountOf, h]
  · intro h
    simp [panelCountOf, h]

/-- C9 witness: the unmapped id `ESP_99` gets divisor 1, and the mapped
id `ESP_01` a positive divisor. -/
theorem C9_witness :
    panelCountOf "ESP_99" = 1 ∧ 0 < panelCountOf "ESP_01" :=
  ⟨(C9_panel_count_divisor "ESP_99").2.2.1 (by decide),
   (C9_panel_count_divisor "ESP_01").1⟩

/-- C10: The electrical-reading ingestion path never writes the status
`offline` to a panel row: after any request, every panel row either
carries one of `healthy`, `warning`, `fault` or is an untouched row of
the prior state. -/
theorem C10_no_offline_write (now : ℤ) (body : SensorUpdateBody) (db : SensorDb) :
    ∀ p ∈ (sensorUpdate now body db).2.panels,
      p.status = "healthy" ∨ p.status = "warning" ∨ p.status = "fault" ∨
        p ∈ db.panels := by
  intro p hp
  rcases sensorUpdate_panels_cases now body db with h | ⟨panelIds, vpp, ppw, h⟩
  · rw [h] at hp
    exact Or.inr (Or.inr (Or.inr hp))
  · rw [h] at hp
    rcases List.mem_map.mp hp with ⟨q, hq, hfq⟩
    by_cases hc : panelIds.contains q.panelId
    · rw [if_pos hc] at hfq
      have hstat : p.status = ingestPanelStatus vpp ppw := by
        rw [← hfq]
        rfl
      rw [hstat]
      unfold ingestPanelStatus
      by_cases h1 : vpp < MIN_WARNING_PANEL_VOLTAGE
      · rw [if_pos h1]
        exact Or.inr (Or.inr (Or.inl rfl))
      · rw [if_neg h1]
        by_cases h2 : vpp < MIN_HEALTHY_PANEL_VOLTAGE ∨ ppw ≤ 0
        · rw [if_pos h2]
          exact Or.inr (Or.inl rfl)
        · rw [if_neg h2]
          exact Or.inl rfl
    · rw [if_neg hc] at hfq
      exact Or.inr (Or.inr (Or.inr (hfq ▸ hq)))

def c10Body : SensorUpdateBody :=
  ⟨some (.str "ESP_01"), some (.num 21), some (.num 100), some (.num 3000)⟩

def c10Db : SensorDb :=
  ⟨[], [],
   [⟨"PNL-A0101", 400, 0, 0, "offline", none⟩,
    ⟨"PNL-A0102", 400, 0, 0, "offline", none⟩,
    ⟨"PNL-A0103", 400, 0, 0, "offline", none⟩], []⟩

set_option maxRecDepth 2000 in
/-- C10 witness: an accepted ESP_01 reading (21 V / 3000 mW over three
panels) rewrites the first previously-offline panel row to a healthy row
— which therefore satisfies the ingestion-status property. -/
theorem C10_witness :
    (⟨"PNL-A0101", 400, 1, 1 / 4, "healthy", some 1000⟩ : PanelRow).status = "healthy" ∨
    (⟨"PNL-A0101", 400, 1, 1 / 4, "healthy", some 1000⟩ : PanelRow).status = "warning" ∨
    (⟨"PNL-A0101", 400, 1, 1 / 4, "healthy", some 1000⟩ : PanelRow).status = "fault" ∨
    (⟨"PNL-A0101", 400, 1, 1 / 4, "healthy", some 1000⟩ : PanelRow) ∈ c10Db.panels :=
  C10_no_offline_write 1000 c10Body c10Db
    ⟨"PNL-A0101", 400, 1, 1 / 4, "healthy", some 1000⟩
    (by with_unfolding_all decide)

end SolarGuardian
